import Mathlib

/-!
# Airtable table creator agent: log buffer and HTTP handlers

A shallow embedding of `src/index.js`.  The process-wide `logs` array is a list
that every handler receives and returns; the clock (`new Date().toISOString()`),
the `AIRTABLE_PAT` environment variable, the two axios calls and the printing of
numbers are inputs collected in `World`.  JavaScript values that cross the JSON
boundary are modelled by `JSValue`; property reads and string conversions that
can throw return `Except`, and an error that escapes a handler is recorded in
`Run.uncaught`.
-/

namespace AirtableAgent

/-! ## JavaScript values -/

/-- JavaScript values reachable from a parsed JSON body, plus `undefined`.
Numbers are restricted to integer values; how a number prints is left to the
environment (`World.numberToString`). -/
inductive JSValue where
  | undefined : JSValue
  | null : JSValue
  | bool : Bool → JSValue
  | num : Int → JSValue
  | str : String → JSValue
  | arr : List JSValue → JSValue
  | obj : List (String × JSValue) → JSValue

namespace JSValue

/-- Own-property lookup in an object literal: the first binding of the key. -/
def lookup (k : String) : List (String × JSValue) → JSValue
  | [] => undefined
  | (k', v) :: rest => if k' = k then v else lookup k rest

/-- Number of UTF-16 code units of a string, which is what `.length` reports. -/
def utf16Length (s : String) : Nat :=
  (s.data.map (fun c => if c.val.toNat < 65536 then 1 else 2)).sum

/-- JavaScript truthiness, as used by `||`. -/
def truthy : JSValue → Bool
  | undefined => false
  | null => false
  | bool b => b
  | num n => n != 0
  | str s => s != ""
  | arr _ => true
  | obj _ => true

/-- Whether an object literal has an own property `k`. -/
def hasOwn (k : String) : List (String × JSValue) → Bool
  | [] => false
  | (k', _) :: rest => if k' = k then true else hasOwn k rest

end JSValue

open JSValue

/-! ## Log buffer -/

/-- One entry of the `logs` array: `{ timestamp, message }`. -/
structure LogEntry where
  timestamp : String
  message : String
deriving DecidableEq, Repr

/-- The function `addLog`: push the entry, then drop the oldest one when the
length exceeds 100.  `timestamp` is the clock reading taken by the call; the
line written to the console is not part of the state. -/
def addLog (timestamp message : String) (logs : List LogEntry) : List LogEntry :=
  let pushed := logs ++ [{ timestamp := timestamp, message := message }]
  if pushed.length > 100 then pushed.tail else pushed

/-- A sequence of `addLog` calls, each given as `(timestamp, message)`. -/
def addLogs (calls : List (String × String)) (logs : List LogEntry) : List LogEntry :=
  calls.foldl (fun buf c => addLog c.1 c.2 buf) logs

/-- The entry created by an `addLog` call given as `(timestamp, message)`. -/
def entryOf (c : String × String) : LogEntry := { timestamp := c.1, message := c.2 }

/-- The call `xs.slice(start)` with one argument. -/
def jsSlice {α : Type} (start : Int) (xs : List α) : List α :=
  let len : Int := xs.length
  let k : Int := if start < 0 then max (len + start) 0 else min start len
  xs.drop k.toNat

/-! ## Property reads -/

/-- The axios response object, as far as the program reads it. -/
structure AxiosResponse where
  status : Nat
  data : JSValue

/-- A thrown value: an axios error (with `response` when upstream answered
outside 2xx) or an engine `TypeError` (no `response`). -/
structure JSError where
  message : String
  response : Option AxiosResponse

/-- Settled result of an awaited axios call. -/
inductive AxiosResult where
  | resolved : AxiosResponse → AxiosResult
  | rejected : JSError → AxiosResult

/-- The `TypeError` raised by `v.prop` when `v` is `undefined` or `null`. -/
def typeErrorRead (v prop : String) : JSError :=
  { message := "Cannot read properties of " ++ v ++ " (reading '" ++ prop ++ "')",
    response := none }

/-- The `TypeError` raised when converting an object to a string finds neither a
callable `toString` nor a `valueOf` that returns a primitive. -/
def typeErrorPrimitive : JSError :=
  { message := "Cannot convert object to primitive value", response := none }

mutual
/-- String conversion performed by a template literal.  An object parsed from
JSON converts to `"[object Object]"` through the inherited `toString`, unless it
has an own property `toString`: that value is never callable and the inherited
`valueOf` returns the object itself, so the conversion throws.  An array
converts through `join`.  `numStr` is the conversion of numbers. -/
def toStr (numStr : Int → String) : JSValue → Except JSError String
  | undefined => .ok "undefined"
  | null => .ok "null"
  | .bool true => .ok "true"
  | .bool false => .ok "false"
  | num n => .ok (numStr n)
  | str s => .ok s
  | arr xs => joinStr numStr xs
  | obj kvs => if hasOwn "toString" kvs then .error typeErrorPrimitive else .ok "[object Object]"
/-- The comma join of `Array.prototype.toString`; the elements are converted in
order and the first conversion that throws ends the join. -/
def joinStr (numStr : Int → String) : List JSValue → Except JSError String
  | [] => .ok ""
  | [x] => elemStr numStr x
  | x :: y :: rest =>
    match elemStr numStr x with
    | .error e => .error e
    | .ok s =>
      match joinStr numStr (y :: rest) with
      | .error e => .error e
      | .ok t => .ok (s ++ "," ++ t)
/-- String of one array element inside a join: `null` and `undefined` are empty. -/
def elemStr (numStr : Int → String) : JSValue → Except JSError String
  | undefined => .ok ""
  | null => .ok ""
  | .bool true => .ok "true"
  | .bool false => .ok "false"
  | num n => .ok (numStr n)
  | str s => .ok s
  | arr xs => joinStr numStr xs
  | obj kvs => if hasOwn "toString" kvs then .error typeErrorPrimitive else .ok "[object Object]"
end

/-- The read `v.k` for the property names the program uses (`id`, `name`,
`fields`, `length`, `tables`, `error`, `message`); none of them is an index. -/
def getProp (v : JSValue) (k : String) : Except JSError JSValue :=
  match v with
  | undefined => .error (typeErrorRead "undefined" k)
  | null => .error (typeErrorRead "null" k)
  | str s => .ok (if k = "length" then num (utf16Length s) else undefined)
  | arr xs => .ok (if k = "length" then num xs.length else undefined)
  | obj kvs => .ok (lookup k kvs)
  | .bool _ => .ok undefined
  | num _ => .ok undefined

/-- The optional read `v?.k`. -/
def optProp (v : JSValue) (k : String) : JSValue :=
  match v with
  | undefined => undefined
  | null => undefined
  | str s => if k = "length" then num (utf16Length s) else undefined
  | arr xs => if k = "length" then num xs.length else undefined
  | obj kvs => lookup k kvs
  | .bool _ => undefined
  | num _ => undefined

/-- The callback `t => t.name` applied to each element in order. -/
def mapName : List JSValue → Except JSError (List JSValue)
  | [] => .ok []
  | t :: rest =>
    match getProp t "name" with
    | .error e => .error e
    | .ok n =>
      match mapName rest with
      | .error e => .error e
      | .ok ns => .ok (n :: ns)

/-- The call `tables.map(t => t.name)`. -/
def mapNames (tables : JSValue) : Except JSError (List JSValue) :=
  match tables with
  | undefined => .error (typeErrorRead "undefined" "map")
  | null => .error (typeErrorRead "null" "map")
  | arr ts => mapName ts
  | _ => .error { message := "response.data.tables.map is not a function", response := none }

/-- The call `xs.includes(s)` for a string `s` (SameValueZero comparison). -/
def includesStr (xs : List JSValue) (s : String) : Bool :=
  xs.any (fun v => match v with
    | str x => x == s
    | _ => false)

/-! ## Environment -/

/-- An outbound axios call. -/
inductive UpstreamCall where
  | post : String → JSValue → List (String × String) → UpstreamCall
  | get : String → List (String × String) → UpstreamCall

/-- What one handler run takes from outside the process: `now k` is the
`k`-th clock reading of the run, `pat` the `AIRTABLE_PAT` variable, `axios`
the settled result of an outbound call, `numberToString` the string the engine
gives for a number. -/
structure World where
  now : Nat → String
  pat : Option String
  axios : UpstreamCall → AxiosResult
  numberToString : Int → String

/-- An inbound request; no handler reads it. -/
structure Request where
  body : JSValue

/-- Status and the value handed to `res.json`. -/
structure HttpResponse where
  status : Nat
  body : JSValue

/-- The constant `BASE_ID`. -/
def BASE_ID : String := "appEZQLiRm9cfnVkP"

/-- The URL of the base's tables collection. -/
def tablesUrl : String := "https://api.airtable.com/v0/meta/bases/" ++ BASE_ID ++ "/tables"

/-- The header value built by the template `Bearer ${AIRTABLE_PAT}`. -/
def bearer (w : World) : String :=
  "Bearer " ++ (match w.pat with
    | some p => p
    | none => "undefined")

/-- A choice `{ name }`. -/
def choice (name : String) : JSValue := obj [("name", str name)]

/-- A choice `{ name, color }`. -/
def colored (name color : String) : JSValue := obj [("name", str name), ("color", str color)]

/-- A field `{ name, type }`. -/
def field (name type : String) : JSValue := obj [("name", str name), ("type", str type)]

/-- A field `{ name, type, options: { choices } }`. -/
def selectField (name type : String) (choices : List JSValue) : JSValue :=
  obj [("name", str name), ("type", str type), ("options", obj [("choices", arr choices)])]

/-- A field `{ name, type: 'number', options: { precision } }`. -/
def numberField (name : String) (precision : Int) : JSValue :=
  obj [("name", str name), ("type", str "number"), ("options", obj [("precision", num precision)])]

/-- The object literal `tableSchema` of the create-table handler. -/
def tableSchema : JSValue :=
  obj [("name", str "Tasks"),
       ("fields", arr [
         field "Task Name" "singleLineText",
         field "Description" "multilineText",
         selectField "Assigned To" "singleSelect"
           [choice "Blake", choice "Beau", choice "Racquel", choice "Lacy"],
         selectField "Priority" "singleSelect"
           [colored "Urgent" "redBright", colored "High" "orangeBright",
            colored "Medium" "yellowBright", colored "Low" "greenBright"],
         selectField "Status" "singleSelect"
           [colored "Not Started" "grayBright", colored "In Progress" "yellowBright",
            colored "Review" "orangeBright", colored "Completed" "greenBright",
            colored "Blocked" "redBright"],
         field "Due Date" "date",
         field "Created Date" "createdTime",
         numberField "Estimated Hours" 1,
         numberField "Actual Hours" 1,
         numberField "Progress %" 0,
         selectField "Tags" "multipleSelects"
           [colored "Development" "blueBright", colored "Marketing" "purpleBright",
            colored "Client Work" "greenBright", colored "Admin" "grayBright",
            colored "Research" "orangeBright", colored "Bug Fix" "redBright"],
         field "Notes" "multilineText"])]

/-! ## Handler runs -/

/-- State threaded through one handler run: the log buffer, the number of
clock readings taken so far, the responses sent, the upstream calls made, and
the error that escaped the handler (nothing catches it), if any. -/
structure Run where
  logs : List LogEntry
  ticks : Nat
  sent : List HttpResponse
  calls : List UpstreamCall
  uncaught : Option JSError

/-- A run that has not done anything yet. -/
def Run.start (logs : List LogEntry) : Run :=
  { logs := logs, ticks := 0, sent := [], calls := [], uncaught := none }

/-- A call of `addLog` inside a run: it reads the clock once. -/
def log (w : World) (message : String) (r : Run) : Run :=
  { r with logs := addLog (w.now r.ticks) message r.logs, ticks := r.ticks + 1 }

/-- The call `res.status(status).json(body)`. -/
def respond (status : Nat) (body : JSValue) (r : Run) : Run :=
  { r with sent := r.sent ++ [{ status := status, body := body }] }

/-- Issue an upstream call and receive its settled result. -/
def await (w : World) (call : UpstreamCall) (r : Run) : Run × AxiosResult :=
  ({ r with calls := r.calls ++ [call] }, w.axios call)

/-- A log entry as the object stored in the `logs` array. -/
def LogEntry.toJS (e : LogEntry) : JSValue :=
  obj [("timestamp", str e.timestamp), ("message", str e.message)]

/-- Handler of `GET /`. -/
def rootHandler (_w : World) (_req : Request) (logs : List LogEntry) : Run :=
  respond 200
    (obj [("status", str "Airtable Table Creator Agent"),
          ("endpoints", arr [
            str "GET / - This status page",
            str "GET /health - Health check",
            str "GET /logs - View recent logs",
            str "POST /create-table - Create the Tasks table",
            str "POST /test - Test run"])])
    (Run.start logs)

/-- Handler of `GET /health`. -/
def healthHandler (w : World) (_req : Request) (logs : List LogEntry) : Run :=
  let r := Run.start logs
  respond 200 (obj [("status", str "healthy"), ("timestamp", str (w.now r.ticks))])
    { r with ticks := r.ticks + 1 }

/-- Handler of `GET /logs`. -/
def logsHandler (_w : World) (_req : Request) (logs : List LogEntry) : Run :=
  respond 200 (obj [("logs", arr ((jsSlice (-20) logs).map LogEntry.toJS))]) (Run.start logs)

/-- The axios call of `POST /create-table`. -/
def createTableCall (w : World) : UpstreamCall :=
  UpstreamCall.post tablesUrl tableSchema
    [("Authorization", bearer w), ("Content-Type", "application/json")]

/-- The axios call of `POST /test`. -/
def testCall (w : World) : UpstreamCall :=
  UpstreamCall.get tablesUrl [("Authorization", bearer w)]

/-- The object literal passed to `res.json` on the success path of
`POST /create-table`; its property reads are evaluated in source order. -/
def createTableBody (data : JSValue) : Except JSError JSValue := do
  let tableId ← getProp data "id"
  let tableName ← getProp data "name"
  let fields ← getProp data "fields"
  let count ← getProp fields "length"
  pure (obj [("success", JSValue.bool true),
             ("message", str "Tasks table created successfully in Growth AI base!"),
             ("tableId", tableId),
             ("tableName", tableName),
             ("fields", count)])

/-- The `try` block of `POST /create-table`: the run state where it ended and
the value it threw, if any. -/
def createTableTry (w : World) (r0 : Run) : Run × Option JSError :=
  let r1 := log w "Starting table creation process..." r0
  let r2 := log w "Sending table creation request to Airtable..." r1
  let (r3, result) := await w (createTableCall w) r2
  match result with
  | .rejected e => (r3, some e)
  | .resolved response =>
    match getProp response.data "id" with
    | .error e => (r3, some e)
    | .ok id =>
      match toStr w.numberToString id with
      | .error e => (r3, some e)
      | .ok idStr =>
        let r4 := log w ("Table created successfully! Table ID: " ++ idStr) r3
        match createTableBody response.data with
        | .error e => (r4, some e)
        | .ok body => (respond 200 body r4, none)

/-- The value of `error.response?.data`. -/
def errorData (error : JSError) : JSValue :=
  match error.response with
  | none => undefined
  | some r => r.data   -- `r.data` itself may be `undefined` or `null`

/-- The value of `error.response?.data?.error?.message`. -/
def upstreamMessage (error : JSError) : JSValue :=
  optProp (optProp (errorData error) "error") "message"

/-- The string `errorMsg` of the create-table `catch` block: `||` selects the
upstream message when it is truthy and `error.message` otherwise, and the template
literal converts the selected value, which throws when it has no string form. -/
def createTableErrorMsg (w : World) (error : JSError) : Except JSError String :=
  let upstream := upstreamMessage error
  if truthy upstream then
    match toStr w.numberToString upstream with
    | .error e => .error e
    | .ok s => .ok ("Failed to create table: " ++ s)
  else .ok ("Failed to create table: " ++ error.message)

/-- The `catch` block of `POST /create-table`.  When building `errorMsg` throws,
the error escapes the handler before `addLog` and before any response. -/
def createTableCatch (w : World) (error : JSError) (r : Run) : Run :=
  match createTableErrorMsg w error with
  | .error e => { r with uncaught := some e }
  | .ok errorMsg =>
    respond 500
      (obj [("success", JSValue.bool false), ("error", str errorMsg),
            ("details", errorData error)])
      (log w errorMsg r)

/-- Handler of `POST /create-table`. -/
def createTableHandler (w : World) (_req : Request) (logs : List LogEntry) : Run :=
  match createTableTry w (Run.start logs) with
  | (r, none) => r
  | (r, some error) => createTableCatch w error r

/-- The expression `response.data.tables.map(t => t.name)`. -/
def existingTables (data : JSValue) : Except JSError (List JSValue) := do
  let tables ← getProp data "tables"
  mapNames tables

/-- The `try` block of `POST /test`. -/
def testTry (w : World) (r0 : Run) : Run × Option JSError :=
  let r1 := log w "Running test - checking Airtable connection..." r0
  let (r2, result) := await w (testCall w) r1
  match result with
  | .rejected e => (r2, some e)
  | .resolved response =>
    match existingTables response.data with
    | .error e => (r2, some e)
    | .ok names =>
      let r3 := log w
        ("Connection successful. Found " ++ toString names.length ++ " existing tables") r2
      (respond 200
        (obj [("success", JSValue.bool true),
              ("message", str "Airtable connection working"),
              ("existingTables", arr names),
              ("ready", JSValue.bool (!includesStr names "Tasks"))]) r3, none)

/-- The `catch` block of `POST /test`. -/
def testCatch (w : World) (error : JSError) (r : Run) : Run :=
  let errorMsg := "Test failed: " ++ error.message
  respond 500 (obj [("success", JSValue.bool false), ("error", str errorMsg)]) (log w errorMsg r)

/-- Handler of `POST /test`. -/
def testHandler (w : World) (_req : Request) (logs : List LogEntry) : Run :=
  match testTry w (Run.start logs) with
  | (r, none) => r
  | (r, some error) => testCatch w error r

/-! ## Sample environments -/

/-- A clock whose `k`-th reading is the decimal numeral of `k`. -/
def sampleClock (k : Nat) : String := toString k

/-- An environment whose upstream settles every call with `result`. -/
def mockWorld (result : AxiosResult) : World :=
  { now := sampleClock, pat := some "pat", axios := fun _ => result,
    numberToString := fun n => toString n }

/-- A request with an empty body. -/
def emptyRequest : Request := { body := undefined }

/-- Upstream body `{id:"tbl123", name:"Tasks", fields:[...12 items]}`. -/
def createdBody : List (String × JSValue) :=
  [("id", str "tbl123"), ("name", str "Tasks"), ("fields", arr (List.replicate 12 (obj [])))]

/-- Upstream body `{id:{toString:1}, name:"Tasks", fields:[]}`. -/
def oddIdBody : List (String × JSValue) :=
  [("id", obj [("toString", num 1)]), ("name", str "Tasks"), ("fields", arr [])]

/-- Upstream rejection with status 422 and the given body. -/
def rejected422 (body : JSValue) : JSError :=
  { message := "Request failed with status code 422",
    response := some { status := 422, data := body } }

/-- Upstream error body `{error:{message}}`. -/
def errorBody (message : String) : JSValue := obj [("error", obj [("message", str message)])]

/-- Upstream list body `{tables:[{name}, ...]}`. -/
def tablesBody (names : List String) : List (String × JSValue) :=
  [("tables", arr (names.map (fun n => obj [("name", str n)])))]

/-! ## Schema accessors -/

/-- The `fields` list of a schema object. -/
def schemaFields (schema : JSValue) : List JSValue :=
  match optProp schema "fields" with
  | arr fs => fs
  | _ => []

/-- The `options.choices` list of a field object. -/
def fieldChoices (f : JSValue) : List JSValue :=
  match optProp (optProp f "options") "choices" with
  | arr cs => cs
  | _ => []

/-! ## Facts about the log buffer -/

theorem addLog_eq_drop (t m : String) (logs : List LogEntry) (h : logs.length ≤ 100) :
    addLog t m logs = (logs ++ [entryOf (t, m)]).drop (logs.length + 1 - 100) := by
  unfold addLog entryOf
  by_cases hlt : logs.length < 100
  · have h0 : logs.length + 1 - 100 = 0 := by omega
    have hng : ¬ 100 < logs.length + 1 := by omega
    simp [h0, hng]
  · have h1 : logs.length + 1 - 100 = 1 := by omega
    have hgt : 100 < logs.length + 1 := by omega
    simp [h1, hgt]

theorem addLog_length_le (t m : String) (logs : List LogEntry) (h : logs.length ≤ 100) :
    (addLog t m logs).length ≤ 100 := by
  rw [addLog_eq_drop t m logs h]
  simp
  omega

theorem addLogs_length_le (calls : List (String × String)) (logs : List LogEntry)
    (h : logs.length ≤ 100) : (addLogs calls logs).length ≤ 100 := by
  induction calls generalizing logs with
  | nil => simpa [addLogs] using h
  | cons c cs ih =>
    have := ih (addLog c.1 c.2 logs) (addLog_length_le c.1 c.2 logs h)
    simpa [addLogs] using this

theorem addLogs_eq_drop (calls : List (String × String)) (logs : List LogEntry)
    (h : logs.length ≤ 100) :
    addLogs calls logs
      = (logs ++ calls.map entryOf).drop (logs.length + calls.length - 100) := by
  induction calls generalizing logs with
  | nil =>
    have h0 : logs.length - 100 = 0 := by omega
    simp [addLogs, h0]
  | cons c cs ih =>
    have hstep : addLogs (c :: cs) logs = addLogs cs (addLog c.1 c.2 logs) := by
      simp [addLogs]
    rw [hstep, ih _ (addLog_length_le c.1 c.2 logs h), addLog_eq_drop c.1 c.2 logs h]
    by_cases hlt : logs.length < 100
    · have h0 : logs.length + 1 - 100 = 0 := by omega
      have h2 : logs.length + 1 + cs.length - 100 = logs.length + (cs.length + 1) - 100 := by
        omega
      simp [h0, h2]
    · have hlen : logs.length = 100 := by omega
      have hle : 1 ≤ (logs ++ [entryOf (c.1, c.2)]).length := by simp
      have hdrop : ((logs ++ [entryOf (c.1, c.2)]).drop 1).length = 100 := by simp [hlen]
      have h1 : logs.length + 1 - 100 = 1 := by omega
      have h3 : 100 + cs.length - 100 = cs.length := by omega
      have h4 : logs.length + (cs.length + 1) - 100 = 1 + cs.length := by omega
      rw [h1, hdrop, ← List.drop_append_of_le_length hle, List.drop_drop, h3,
        List.length_cons, h4]
      simp [entryOf]

/-- C1: starting from the empty buffer, after each call of any finite sequence of
`addLog` calls (that is, after every prefix of the sequence) the buffer holds at
most 100 entries. -/
theorem addLog_buffer_length_le_100 (calls : List (String × String)) (k : Nat) :
    (addLogs (calls.take k) []).length ≤ 100 :=
  addLogs_length_le (calls.take k) [] (by simp)

/-- C2: starting from the empty buffer, after `addLog` was called with the messages
`m_1..m_n` in that order, the buffer holds exactly the last `min n 100` of the
calls' entries, hence of the messages, in their original order. -/
theorem addLog_buffer_keeps_last_100 (calls : List (String × String)) :
    addLogs calls [] = (calls.map entryOf).drop (calls.length - min calls.length 100) ∧
    (addLogs calls []).map LogEntry.message
      = (calls.map Prod.snd).drop (calls.length - min calls.length 100) ∧
    ((addLogs calls []).map LogEntry.message).length = min calls.length 100 := by
  have h := addLogs_eq_drop calls [] (by simp)
  have hk : calls.length - min calls.length 100 = calls.length - 100 := by omega
  simp only [List.length_nil, Nat.zero_add, List.nil_append] at h
  rw [hk, h]
  refine ⟨rfl, ?_, ?_⟩
  · rw [← List.map_drop, ← List.map_drop, List.map_map]
    rfl
  · simp
    omega

/-- C3: for every buffer state, `GET /logs` answers once, with status 200 and a
`logs` list holding the `timestamp` and `message` of each entry of `recent`, where
`recent` has exactly `min 20 bufferLength` entries and is a suffix of the buffer
(so it keeps insertion order): the last `min 20 bufferLength` entries. -/
theorem logs_endpoint_returns_last_20 (w : World) (req : Request) (logs : List LogEntry) :
    ∃ recent : List LogEntry,
      (logsHandler w req logs).sent
        = [{ status := 200,
             body := obj [("logs", arr (recent.map (fun e =>
               obj [("timestamp", str e.timestamp), ("message", str e.message)])))] }] ∧
      recent.length = min 20 logs.length ∧
      recent <:+ logs ∧
      recent = logs.drop (logs.length - 20) := by
  refine ⟨jsSlice (-20) logs, ?_, ?_, ?_, ?_⟩
  · simp [logsHandler, respond, Run.start, LogEntry.toJS]
  · simp [jsSlice]
    omega
  · exact List.drop_suffix _ _
  · simp [jsSlice]
    congr 1
    omega

/-! ## Create-table -/

theorem createTableTry_resolved (w : World) (logs : List LogEntry) (response : AxiosResponse)
    (h : w.axios (createTableCall w) = .resolved response) :
    createTableTry w (Run.start logs)
      = (match getProp response.data "id" with
        | .error e =>
          ({ logs := addLog (w.now 1) "Sending table creation request to Airtable..."
                      (addLog (w.now 0) "Starting table creation process..." logs),
             ticks := 2, sent := [], calls := [createTableCall w], uncaught := none }, some e)
        | .ok id =>
          match toStr w.numberToString id with
          | .error e =>
            ({ logs := addLog (w.now 1) "Sending table creation request to Airtable..."
                        (addLog (w.now 0) "Starting table creation process..." logs),
               ticks := 2, sent := [], calls := [createTableCall w], uncaught := none },
             some e)
          | .ok idStr =>
            match createTableBody response.data with
            | .error e =>
              ({ logs := addLog (w.now 2) ("Table created successfully! Table ID: " ++ idStr)
                          (addLog (w.now 1) "Sending table creation request to Airtable..."
                            (addLog (w.now 0) "Starting table creation process..." logs)),
                 ticks := 3, sent := [], calls := [createTableCall w], uncaught := none },
               some e)
            | .ok body =>
              ({ logs := addLog (w.now 2) ("Table created successfully! Table ID: " ++ idStr)
                          (addLog (w.now 1) "Sending table creation request to Airtable..."
                            (addLog (w.now 0) "Starting table creation process..." logs)),
                 ticks := 3, sent := [{ status := 200, body := body }],
                 calls := [createTableCall w], uncaught := none }, none)) := by
  simp only [createTableTry, await, h, log, Run.start, respond]
  cases getProp response.data "id" with
  | error e => rfl
  | ok id =>
    simp only []
    cases toStr w.numberToString id with
    | error e => rfl
    | ok idStr =>
      simp only []
      cases createTableBody response.data <;> rfl

theorem createTableTry_rejected (w : World) (logs : List LogEntry) (e : JSError)
    (h : w.axios (createTableCall w) = .rejected e) :
    createTableTry w (Run.start logs)
      = ({ logs := addLog (w.now 1) "Sending table creation request to Airtable..."
                    (addLog (w.now 0) "Starting table creation process..." logs),
           ticks := 2, sent := [], calls := [createTableCall w], uncaught := none },
         some e) := by
  simp [createTableTry, await, h, log, Run.start]

theorem createTableCatch_calls (w : World) (e : JSError) (r : Run) :
    (createTableCatch w e r).calls = r.calls := by
  unfold createTableCatch
  cases createTableErrorMsg w e <;> rfl

theorem createTableHandler_rejected (w : World) (req : Request) (logs : List LogEntry)
    (e : JSError) (msg : String) (h : w.axios (createTableCall w) = .rejected e)
    (hmsg : createTableErrorMsg w e = .ok msg) :
    createTableHandler w req logs
      = { logs := addLog (w.now 2) msg
                    (addLog (w.now 1) "Sending table creation request to Airtable..."
                      (addLog (w.now 0) "Starting table creation process..." logs)),
          ticks := 3,
          sent := [{ status := 500,
                     body := obj [("success", JSValue.bool false),
                                  ("error", str msg),
                                  ("details", errorData e)] }],
          calls := [createTableCall w],
          uncaught := none } := by
  simp [createTableHandler, createTableTry_rejected w logs e h, createTableCatch, hmsg, log,
    respond]

/-- C4 as stated fails: an upstream success whose body has an id, a name and a list
of fields, where the id is the object `{toString:1}`, is answered with status 500:
building the success log line throws before anything is logged as success. -/
theorem createTable_success_as_stated_fails :
    ¬ (∀ (w : World) (req : Request) (logs : List LogEntry) (status : Nat)
        (kvs : List (String × JSValue)) (fs : List JSValue),
        w.axios (createTableCall w) = .resolved { status := status, data := obj kvs } →
        hasOwn "id" kvs = true → hasOwn "name" kvs = true →
        lookup "fields" kvs = arr fs →
        (createTableHandler w req logs).sent
          = [{ status := 200,
               body := obj [("success", JSValue.bool true),
                            ("message",
                              str "Tasks table created successfully in Growth AI base!"),
                            ("tableId", lookup "id" kvs),
                            ("tableName", lookup "name" kvs),
                            ("fields", num fs.length)] }]) := by
  intro hclaim
  have hd := hclaim (mockWorld (.resolved { status := 200, data := obj oddIdBody }))
    emptyRequest [] 200 oddIdBody [] rfl rfl rfl rfl
  have hsent : (createTableHandler
      (mockWorld (.resolved { status := 200, data := obj oddIdBody })) emptyRequest []).sent
      = [{ status := 500,
           body := obj [("success", JSValue.bool false),
                        ("error", str
                          "Failed to create table: Cannot convert object to primitive value"),
                        ("details", undefined)] }] := by
    rfl
  rw [hsent] at hd
  simp at hd

/-- C4 (amended): when the upstream create call succeeds with a body that is an
object whose `id` has a string form and whose `fields` is a list,
`POST /create-table` answers once, with status 200, `success:true`, `tableId` the
body's `id`, `tableName` the body's `name` and `fields` the length of that list. -/
theorem createTable_success_response (w : World) (req : Request) (logs : List LogEntry)
    (status : Nat) (kvs : List (String × JSValue)) (fs : List JSValue) (idStr : String)
    (hres : w.axios (createTableCall w) = .resolved { status := status, data := obj kvs })
    (hid : toStr w.numberToString (lookup "id" kvs) = .ok idStr)
    (hfields : lookup "fields" kvs = arr fs) :
    (createTableHandler w req logs).sent
      = [{ status := 200,
           body := obj [("success", JSValue.bool true),
                        ("message", str "Tasks table created successfully in Growth AI base!"),
                        ("tableId", lookup "id" kvs),
                        ("tableName", lookup "name" kvs),
                        ("fields", num fs.length)] }] := by
  simp [createTableHandler, createTableTry_resolved w logs _ hres, getProp, hid,
    createTableBody, hfields, bind, Except.bind, pure, Except.pure]

theorem createTable_success_response_witness :
    (mockWorld (.resolved { status := 200, data := obj createdBody })).axios
        (createTableCall (mockWorld (.resolved { status := 200, data := obj createdBody })))
      = .resolved { status := 200, data := obj createdBody } ∧
    toStr (mockWorld (.resolved { status := 200, data := obj createdBody })).numberToString
        (lookup "id" createdBody) = .ok "tbl123" ∧
    lookup "fields" createdBody = arr (List.replicate 12 (obj [])) ∧
    (createTableHandler (mockWorld (.resolved { status := 200, data := obj createdBody }))
        emptyRequest []).sent
      = [{ status := 200,
           body := obj [("success", JSValue.bool true),
                        ("message", str "Tasks table created successfully in Growth AI base!"),
                        ("tableId", str "tbl123"),
                        ("tableName", str "Tasks"),
                        ("fields", num 12)] }] :=
  ⟨rfl, rfl, rfl,
    createTable_success_response (mockWorld (.resolved { status := 200, data := obj createdBody }))
      emptyRequest [] 200 createdBody (List.replicate 12 (obj [])) "tbl123" rfl rfl rfl⟩

/-- C5 as stated fails: an upstream 422 whose body carries the empty string as
`error.message` is answered with the transport message after the prefix, not with
the body's message. -/
theorem createTable_error_message_as_stated_fails :
    ¬ (∀ (w : World) (req : Request) (logs : List LogEntry) (e : JSError) (m : String),
        w.axios (createTableCall w) = .rejected e →
        upstreamMessage e = str m →
        ∃ details, (createTableHandler w req logs).sent
          = [{ status := 500,
               body := obj [("success", JSValue.bool false),
                            ("error", str ("Failed to create table: " ++ m)),
                            ("details", details)] }]) := by
  intro hclaim
  obtain ⟨details, hd⟩ :=
    hclaim (mockWorld (.rejected (rejected422 (errorBody "")))) emptyRequest []
      (rejected422 (errorBody "")) "" rfl rfl
  have hsent : (createTableHandler (mockWorld (.rejected (rejected422 (errorBody ""))))
      emptyRequest []).sent
      = [{ status := 500,
           body := obj [("success", JSValue.bool false),
                        ("error", str "Failed to create table: Request failed with status code 422"),
                        ("details", errorBody "")] }] := by
    rfl
  rw [hsent] at hd
  simp at hd

/-- C5 (amended): when the upstream create call fails with error `e`,
`POST /create-table` answers once, with status 500, `success:false` and the
upstream body as `details`, and with `error` equal to `"Failed to create table: "`
followed by `e.message` when the body's `error.message` is absent or falsy (such
as the empty string), by the string form of the body's `error.message` when that
value is truthy and has a string form, and so by the message itself when it is a
non-empty string. -/
theorem createTable_failure_response (w : World) (req : Request) (logs : List LogEntry)
    (e : JSError) (h : w.axios (createTableCall w) = .rejected e) :
    (truthy (upstreamMessage e) = false →
      (createTableHandler w req logs).sent
        = [{ status := 500,
             body := obj [("success", JSValue.bool false),
                          ("error", str ("Failed to create table: " ++ e.message)),
                          ("details", errorData e)] }]) ∧
    (∀ s : String, truthy (upstreamMessage e) = true →
      toStr w.numberToString (upstreamMessage e) = .ok s →
      (createTableHandler w req logs).sent
        = [{ status := 500,
             body := obj [("success", JSValue.bool false),
                          ("error", str ("Failed to create table: " ++ s)),
                          ("details", errorData e)] }]) ∧
    (∀ m : String, upstreamMessage e = str m → m ≠ "" →
      (createTableHandler w req logs).sent
        = [{ status := 500,
             body := obj [("success", JSValue.bool false),
                          ("error", str ("Failed to create table: " ++ m)),
                          ("details", errorData e)] }]) := by
  refine ⟨?_, ?_, ?_⟩
  · intro hf
    have hmsg : createTableErrorMsg w e = .ok ("Failed to create table: " ++ e.message) := by
      simp [createTableErrorMsg, hf]
    rw [createTableHandler_rejected w req logs e _ h hmsg]
  · intro s ht hs
    have hmsg : createTableErrorMsg w e = .ok ("Failed to create table: " ++ s) := by
      simp [createTableErrorMsg, ht, hs]
    rw [createTableHandler_rejected w req logs e _ h hmsg]
  · intro m hm hne
    have hmsg : createTableErrorMsg w e = .ok ("Failed to create table: " ++ m) := by
      simp [createTableErrorMsg, hm, truthy, toStr, hne]
    rw [createTableHandler_rejected w req logs e _ h hmsg]

theorem createTable_failure_response_witness :
    (mockWorld (.rejected (rejected422 (errorBody "Table name already exists")))).axios
        (createTableCall
          (mockWorld (.rejected (rejected422 (errorBody "Table name already exists")))))
      = .rejected (rejected422 (errorBody "Table name already exists")) ∧
    (createTableHandler
        (mockWorld (.rejected (rejected422 (errorBody "Table name already exists"))))
        emptyRequest []).sent
      = [{ status := 500,
           body := obj [("success", JSValue.bool false),
                        ("error", str "Failed to create table: Table name already exists"),
                        ("details", errorBody "Table name already exists")] }] :=
  ⟨rfl,
    (createTable_failure_response
      (mockWorld (.rejected (rejected422 (errorBody "Table name already exists"))))
      emptyRequest [] (rejected422 (errorBody "Table name already exists")) rfl).2.2
      "Table name already exists" rfl (by decide)⟩

/-! ## Test run -/

theorem mapName_objects (ts : List (List (String × JSValue))) :
    mapName (ts.map obj) = .ok (ts.map (lookup "name")) := by
  induction ts with
  | nil => rfl
  | cons t rest ih => simp [mapName, getProp, ih]

theorem includesStr_iff (xs : List JSValue) (s : String) :
    includesStr xs s = true ↔ str s ∈ xs := by
  induction xs with
  | nil => simp [includesStr]
  | cons x rest ih =>
    have hstep : includesStr (x :: rest) s
        = ((match x with
            | str y => y == s
            | _ => false) || includesStr rest s) := by
      simp [includesStr]
    rw [hstep, Bool.or_eq_true, ih, List.mem_cons]
    cases x with
    | str y =>
      simp only [beq_iff_eq, str.injEq]
      constructor
      · rintro (h | h)
        · exact Or.inl h.symm
        · exact Or.inr h
      · rintro (h | h)
        · exact Or.inl h.symm
        · exact Or.inr h
    | _ => simp

theorem testTry_resolved (w : World) (logs : List LogEntry) (response : AxiosResponse)
    (h : w.axios (testCall w) = .resolved response) :
    testTry w (Run.start logs)
      = (match existingTables response.data with
        | .error e =>
          ({ logs := addLog (w.now 0) "Running test - checking Airtable connection..." logs,
             ticks := 1, sent := [], calls := [testCall w], uncaught := none }, some e)
        | .ok names =>
          ({ logs := addLog (w.now 1)
                      ("Connection successful. Found " ++ toString names.length
                        ++ " existing tables")
                      (addLog (w.now 0) "Running test - checking Airtable connection..." logs),
             ticks := 2,
             sent := [{ status := 200,
                        body := obj [("success", JSValue.bool true),
                                     ("message", str "Airtable connection working"),
                                     ("existingTables", arr names),
                                     ("ready", JSValue.bool (!includesStr names "Tasks"))] }],
             calls := [testCall w], uncaught := none }, none)) := by
  simp only [testTry, await, h, log, Run.start, respond]
  cases existingTables response.data <;> rfl

theorem testTry_rejected (w : World) (logs : List LogEntry) (e : JSError)
    (h : w.axios (testCall w) = .rejected e) :
    testTry w (Run.start logs)
      = ({ logs := addLog (w.now 0) "Running test - checking Airtable connection..." logs,
           ticks := 1, sent := [], calls := [testCall w], uncaught := none }, some e) := by
  simp [testTry, await, h, log, Run.start]

/-- C6: when the upstream list call succeeds with tables `t_1..t_k`, `POST /test`
answers once, with status 200, `success:true`, `existingTables` the tables' names
in the same order, and `ready` true exactly when no name in that list is
`"Tasks"`. -/
theorem test_success_response (w : World) (req : Request) (logs : List LogEntry)
    (status : Nat) (kvs : List (String × JSValue)) (ts : List (List (String × JSValue)))
    (hres : w.axios (testCall w) = .resolved { status := status, data := obj kvs })
    (htables : lookup "tables" kvs = arr (ts.map obj)) :
    ∃ ready : Bool,
      (testHandler w req logs).sent
        = [{ status := 200,
             body := obj [("success", JSValue.bool true),
                          ("message", str "Airtable connection working"),
                          ("existingTables", arr (ts.map (lookup "name"))),
                          ("ready", JSValue.bool ready)] }] ∧
      (ready = true ↔ ∀ n ∈ ts.map (lookup "name"), n ≠ str "Tasks") := by
  refine ⟨!includesStr (ts.map (lookup "name")) "Tasks", ?_, ?_⟩
  · have hnames : existingTables (obj kvs) = .ok (ts.map (lookup "name")) := by
      simp [existingTables, getProp, htables, mapNames, mapName_objects, bind, Except.bind]
    simp [testHandler, testTry_resolved w logs _ hres, hnames]
  · rw [Bool.not_eq_true', ← Bool.not_eq_true, includesStr_iff]
    constructor
    · intro hno n hn heq
      exact hno (heq ▸ hn)
    · intro hall hmem
      exact hall _ hmem rfl

theorem test_success_response_witness :
    (mockWorld (.resolved { status := 200, data := obj (tablesBody ["Leads", "Tasks"]) })).axios
        (testCall
          (mockWorld (.resolved { status := 200, data := obj (tablesBody ["Leads", "Tasks"]) })))
      = .resolved { status := 200, data := obj (tablesBody ["Leads", "Tasks"]) } ∧
    lookup "tables" (tablesBody ["Leads", "Tasks"])
      = arr ([[("name", str "Leads")], [("name", str "Tasks")]].map obj) ∧
    ∃ ready : Bool,
      (testHandler
          (mockWorld (.resolved { status := 200, data := obj (tablesBody ["Leads", "Tasks"]) }))
          emptyRequest []).sent
        = [{ status := 200,
             body := obj [("success", JSValue.bool true),
                          ("message", str "Airtable connection working"),
                          ("existingTables",
                            arr ([[("name", str "Leads")], [("name", str "Tasks")]].map
                              (lookup "name"))),
                          ("ready", JSValue.bool ready)] }] ∧
      (ready = true ↔
        ∀ n ∈ [[("name", str "Leads")], [("name", str "Tasks")]].map (lookup "name"),
          n ≠ str "Tasks") :=
  ⟨rfl, rfl,
    test_success_response
      (mockWorld (.resolved { status := 200, data := obj (tablesBody ["Leads", "Tasks"]) }))
      emptyRequest [] 200 (tablesBody ["Leads", "Tasks"])
      [[("name", str "Leads")], [("name", str "Tasks")]] rfl rfl⟩

theorem createTableHandler_calls (w : World) (req : Request) (logs : List LogEntry) :
    (createTableHandler w req logs).calls = [createTableCall w] := by
  cases hres : w.axios (createTableCall w) with
  | rejected e =>
    simp only [createTableHandler, createTableTry_rejected w logs e hres,
      createTableCatch_calls]
  | resolved response =>
    simp only [createTableHandler, createTableTry_resolved w logs response hres]
    cases getProp response.data "id" with
    | error e => simp only [createTableCatch_calls]
    | ok id =>
      simp only []
      cases toStr w.numberToString id with
      | error e => simp only [createTableCatch_calls]
      | ok idStr =>
        simp only []
        cases createTableBody response.data with
        | error e => simp only [createTableCatch_calls]
        | ok body => rfl

/-- C7: whatever the request, the log buffer and the upstream answer, one run of
`POST /create-table` makes exactly one upstream call, a POST to the base's tables
collection whose body is the constant `tableSchema`; that schema is named
`"Tasks"` and has exactly 12 fields with the listed names, kinds, precisions and
choices, and every choice of Priority, Status and Tags carries a color. -/
theorem createTable_sends_constant_schema (w : World) (req : Request) (logs : List LogEntry) :
    (createTableHandler w req logs).calls
      = [UpstreamCall.post tablesUrl tableSchema
          [("Authorization", bearer w), ("Content-Type", "application/json")]] ∧
    optProp tableSchema "name" = str "Tasks" ∧
    optProp tableSchema "fields" = arr (schemaFields tableSchema) ∧
    (schemaFields tableSchema).length = 12 ∧
    (schemaFields tableSchema).map (fun f => optProp f "name")
      = [str "Task Name", str "Description", str "Assigned To", str "Priority", str "Status",
         str "Due Date", str "Created Date", str "Estimated Hours", str "Actual Hours",
         str "Progress %", str "Tags", str "Notes"] ∧
    (schemaFields tableSchema).map (fun f => optProp f "type")
      = [str "singleLineText", str "multilineText", str "singleSelect", str "singleSelect",
         str "singleSelect", str "date", str "createdTime", str "number", str "number",
         str "number", str "multipleSelects", str "multilineText"] ∧
    (schemaFields tableSchema).map (fun f => optProp (optProp f "options") "precision")
      = [undefined, undefined, undefined, undefined, undefined, undefined, undefined,
         num 1, num 1, num 0, undefined, undefined] ∧
    (schemaFields tableSchema).map (fun f => (fieldChoices f).map (fun c => optProp c "name"))
      = [[], [],
         [str "Blake", str "Beau", str "Racquel", str "Lacy"],
         [str "Urgent", str "High", str "Medium", str "Low"],
         [str "Not Started", str "In Progress", str "Review", str "Completed", str "Blocked"],
         [], [], [], [], [],
         [str "Development", str "Marketing", str "Client Work", str "Admin", str "Research",
          str "Bug Fix"],
         []] ∧
    (schemaFields tableSchema).map (fun f => (fieldChoices f).map (fun c => optProp c "color"))
      = [[], [],
         [undefined, undefined, undefined, undefined],
         [str "redBright", str "orangeBright", str "yellowBright", str "greenBright"],
         [str "grayBright", str "yellowBright", str "orangeBright", str "greenBright",
          str "redBright"],
         [], [], [], [], [],
         [str "blueBright", str "purpleBright", str "greenBright", str "grayBright",
          str "orangeBright", str "redBright"],
         []] :=
  ⟨createTableHandler_calls w req logs, rfl, rfl, rfl, rfl, rfl, rfl, rfl, rfl⟩

/-- C8 fails on the code: when the upstream create call succeeds with the body
`{id:"tbl123", name:"Tasks"}` (no `fields`), the run appends the success log
entry, then the failure log entry, and answers 500 with `success:false`. -/
theorem createTable_success_log_then_500_on_missing_fields :
    (createTableHandler
        (mockWorld (.resolved
          { status := 200, data := obj [("id", str "tbl123"), ("name", str "Tasks")] }))
        emptyRequest []).logs.map LogEntry.message
      = ["Starting table creation process...",
         "Sending table creation request to Airtable...",
         "Table created successfully! Table ID: tbl123",
         "Failed to create table: Cannot read properties of undefined (reading 'length')"] ∧
    (createTableHandler
        (mockWorld (.resolved
          { status := 200, data := obj [("id", str "tbl123"), ("name", str "Tasks")] }))
        emptyRequest []).sent
      = [{ status := 500,
           body := obj [("success", JSValue.bool false),
                        ("error", str
                          "Failed to create table: Cannot read properties of undefined (reading 'length')"),
                        ("details", undefined)] }] :=
  ⟨by decide, rfl⟩

theorem existingTables_error_of_no_list (data : JSValue)
    (h : ∀ ts, optProp data "tables" ≠ arr ts) :
    ∃ e, existingTables data = .error e := by
  cases data with
  | undefined => exact ⟨_, rfl⟩
  | null => exact ⟨_, rfl⟩
  | bool b => exact ⟨_, rfl⟩
  | num n => exact ⟨_, rfl⟩
  | str s =>
    by_cases hk : ("tables" : String) = "length"
    · exact absurd hk (by decide)
    · simp [existingTables, getProp, hk, mapNames, bind, Except.bind]
  | arr xs =>
    by_cases hk : ("tables" : String) = "length"
    · exact absurd hk (by decide)
    · simp [existingTables, getProp, hk, mapNames, bind, Except.bind]
  | obj kvs =>
    have hl : ∀ ts, lookup "tables" kvs ≠ arr ts := by
      intro ts
      simpa [optProp] using h ts
    simp only [existingTables, getProp, bind, Except.bind]
    cases hv : lookup "tables" kvs with
    | arr ts => exact absurd hv (hl ts)
    | undefined => exact ⟨_, rfl⟩
    | null => exact ⟨_, rfl⟩
    | bool b => exact ⟨_, rfl⟩
    | num n => exact ⟨_, rfl⟩
    | str s => exact ⟨_, rfl⟩
    | obj o => exact ⟨_, rfl⟩

theorem addLog_addLog_eq (t1 m1 t2 m2 : String) (logs : List LogEntry) :
    addLog t2 m2 (addLog t1 m1 logs)
      = List.drop (min 2 (logs.length + 2 - 100))
          (logs ++ [{ timestamp := t1, message := m1 }, { timestamp := t2, message := m2 }]) := by
  have happ : logs ++ [({ timestamp := t1, message := m1 } : LogEntry),
      { timestamp := t2, message := m2 }]
      = (logs ++ [{ timestamp := t1, message := m1 }]) ++ [{ timestamp := t2, message := m2 }] := by
    simp
  rcases Nat.lt_or_ge logs.length 99 with h | h
  · have hk : min 2 (logs.length + 2 - 100) = 0 := by omega
    have h1 : ¬ 100 < logs.length + 1 := by omega
    have h2 : ¬ 100 < logs.length + 1 + 1 := by omega
    rw [hk]
    simp [addLog, h1, h2]
  · rcases Nat.eq_or_lt_of_le h with h | h
    · have hk : min 2 (logs.length + 2 - 100) = 1 := by omega
      have h1 : ¬ 100 < logs.length + 1 := by omega
      have h2 : 100 < logs.length + 1 + 1 := by omega
      rw [hk]
      simp [addLog, h1, h2]
    · have hk : min 2 (logs.length + 2 - 100) = 2 := by omega
      have h1 : 100 < logs.length + 1 := by omega
      have hlen : ((logs ++ [({ timestamp := t1, message := m1 } : LogEntry)]).tail).length
          = logs.length := by simp
      have hle : 1 ≤ (logs ++ [({ timestamp := t1, message := m1 } : LogEntry)]).length := by
        simp
      rw [hk, happ]
      simp only [addLog, List.length_append, List.length_singleton, gt_iff_lt, h1, if_true,
        hlen]
      rw [← List.drop_one, ← List.drop_one, ← List.drop_append_of_le_length hle,
        List.drop_drop]

/-- C9: when the upstream list call of `POST /test` fails (it rejects, with or
without an upstream response, or it resolves with a body that has no `tables`
list), the try block throws an error and nothing escapes the handler; the buffer
afterwards is the old buffer followed by the intent entry and then one failure
entry, less the oldest entries evicted by the cap (none while at most 98 entries
were held); and the run answers exactly once, with status 500, `success:false` and
`error` equal to that failure entry's message, which is `"Test failed: "` followed
by the error's message (for a rejection: the message of the rejection).  The same
holds when the names cannot be read from the body for any other reason. -/
theorem test_failure_response (w : World) (req : Request) (logs : List LogEntry)
    (h : (∃ e, w.axios (testCall w) = .rejected e) ∨
         (∃ response, w.axios (testCall w) = .resolved response ∧
            ∀ ts, optProp response.data "tables" ≠ arr ts) ∨
         (∃ response e, w.axios (testCall w) = .resolved response ∧
            existingTables response.data = .error e)) :
    ∃ error : JSError,
      (testTry w (Run.start logs)).2 = some error ∧
      (∀ e, w.axios (testCall w) = .rejected e → error = e) ∧
      (testHandler w req logs).uncaught = none ∧
      (testHandler w req logs).logs
        = List.drop (min 2 (logs.length + 2 - 100))
            (logs ++ [{ timestamp := w.now 0,
                        message := "Running test - checking Airtable connection..." },
                      { timestamp := w.now 1,
                        message := "Test failed: " ++ error.message }]) ∧
      (testHandler w req logs).sent
        = [{ status := 500,
             body := obj [("success", JSValue.bool false),
                          ("error", str ("Test failed: " ++ error.message))] }] := by
  have h3 : (∃ e, w.axios (testCall w) = .rejected e) ∨
      (∃ response e, w.axios (testCall w) = .resolved response ∧
        existingTables response.data = .error e) := by
    rcases h with h | ⟨response, hr, hno⟩ | h
    · exact Or.inl h
    · obtain ⟨e, he⟩ := existingTables_error_of_no_list response.data hno
      exact Or.inr ⟨response, e, hr, he⟩
    · exact Or.inr h
  rcases h3 with ⟨e, he⟩ | ⟨response, e, hr, he⟩
  · refine ⟨e, ?_, ?_, ?_, ?_, ?_⟩
    · rw [testTry_rejected w logs e he]
    · intro e' he'
      rw [he] at he'
      cases he'
      rfl
    · simp [testHandler, testTry_rejected w logs e he, testCatch, log, respond]
    · rw [← addLog_addLog_eq]
      simp [testHandler, testTry_rejected w logs e he, testCatch, log, respond]
    · simp [testHandler, testTry_rejected w logs e he, testCatch, log, respond]
  · refine ⟨e, ?_, ?_, ?_, ?_, ?_⟩
    · rw [testTry_resolved w logs response hr, he]
    · intro e' he'
      rw [hr] at he'
      cases he'
    · simp [testHandler, testTry_resolved w logs response hr, he, testCatch, log, respond]
    · rw [← addLog_addLog_eq]
      simp [testHandler, testTry_resolved w logs response hr, he, testCatch, log, respond]
    · simp [testHandler, testTry_resolved w logs response hr, he, testCatch, log, respond]

theorem test_failure_response_witness :
    ((∃ e, (mockWorld (.resolved { status := 200, data := obj [] })).axios
              (testCall (mockWorld (.resolved { status := 200, data := obj [] })))
            = .rejected e) ∨
      (∃ response, (mockWorld (.resolved { status := 200, data := obj [] })).axios
              (testCall (mockWorld (.resolved { status := 200, data := obj [] })))
            = .resolved response ∧
          ∀ ts, optProp response.data "tables" ≠ arr ts) ∨
      (∃ response e, (mockWorld (.resolved { status := 200, data := obj [] })).axios
              (testCall (mockWorld (.resolved { status := 200, data := obj [] })))
            = .resolved response ∧
          existingTables response.data = .error e)) ∧
    ∃ error : JSError,
      (testTry (mockWorld (.resolved { status := 200, data := obj [] })) (Run.start [])).2
        = some error ∧
      (∀ e, (mockWorld (.resolved { status := 200, data := obj [] })).axios
              (testCall (mockWorld (.resolved { status := 200, data := obj [] })))
            = .rejected e → error = e) ∧
      (testHandler (mockWorld (.resolved { status := 200, data := obj [] }))
          emptyRequest []).uncaught = none ∧
      (testHandler (mockWorld (.resolved { status := 200, data := obj [] })) emptyRequest []).logs
        = List.drop (min 2 (([] : List LogEntry).length + 2 - 100))
            ([] ++ [{ timestamp := (mockWorld (.resolved { status := 200, data := obj [] })).now 0,
                      message := "Running test - checking Airtable connection..." },
                    { timestamp := (mockWorld (.resolved { status := 200, data := obj [] })).now 1,
                      message := "Test failed: " ++ error.message }]) ∧
      (testHandler (mockWorld (.resolved { status := 200, data := obj [] })) emptyRequest []).sent
        = [{ status := 500,
             body := obj [("success", JSValue.bool false),
                          ("error", str ("Test failed: " ++ error.message))] }] :=
  ⟨Or.inr (Or.inl ⟨{ status := 200, data := obj [] }, rfl, fun ts hts => by cases hts⟩),
    test_failure_response (mockWorld (.resolved { status := 200, data := obj [] })) emptyRequest []
      (Or.inr (Or.inl ⟨{ status := 200, data := obj [] }, rfl, fun ts hts => by cases hts⟩))⟩

/-! ## Read-only endpoints -/

/-- C10: for every buffer state and every environment, handling `GET /`,
`GET /health` or `GET /logs` leaves the log buffer as it was and makes no upstream
call, and `GET /health` answers once with status 200 and `status:"healthy"`
together with the clock reading as `timestamp`. -/
theorem get_handlers_leave_buffer_unchanged (w : World) (req : Request)
    (logs : List LogEntry) :
    (rootHandler w req logs).logs = logs ∧ (rootHandler w req logs).calls = [] ∧
    (healthHandler w req logs).logs = logs ∧ (healthHandler w req logs).calls = [] ∧
    (logsHandler w req logs).logs = logs ∧ (logsHandler w req logs).calls = [] ∧
    (healthHandler w req logs).sent
      = [{ status := 200,
           body := obj [("status", str "healthy"), ("timestamp", str (w.now 0))] }] :=
  ⟨rfl, rfl, rfl, rfl, rfl, rfl, rfl⟩

end AirtableAgent
